import Mathlib

/-!
Verification of the Qboost demo notebook (`qboost_demo.ipynb`).

The notebook is an orchestration script: it loads data, preprocesses it, fits
five classifiers (three plain scikit-learn / qboost classifiers and two that
take the D-Wave embedding-composite sampler as a fit argument), and prints
accuracy tables.  All external library calls are modelled as oracles collected
in an `Env` record; each call returns `Except PyErr _` (a Python call either
returns a value or raises).  The notebook functions `metric` and `train_model`
are translated into a trace-recording error monad `M`: every external call
appends an `Event` to the trace, and an error result short-circuits the rest
of the computation, exactly as an uncaught Python exception would.

The dataset-construction cells (MNIST label/slice construction, breast-cancer
label construction and train/test split) are pure and are translated directly
as list functions over `ℚ`-valued feature rows and `Int`-valued labels.
-/

namespace QboostDemo

/-- Python exception values that library calls inside the notebook can raise
(the notebook installs no handler for any of them). -/
inductive PyErr : Type
  | valueError (msg : String)
  | networkError (msg : String)
  | authError (msg : String)
  | other (msg : String)
deriving DecidableEq

/-- A feature matrix: a list of rows of numeric features. -/
abbrev Mat : Type := List (List ℚ)

/-- A label vector for the ±1 binary classification target. -/
abbrev Lbl : Type := List Int

/-- The five classifiers fitted by `train_model`, in training order. -/
inductive ClfKind : Type
  | adaboost | decisionTree | randomForest | qboost | qboostPlus
deriving DecidableEq

/-- Whether a call operates on the training or the testing data. -/
inductive Side : Type
  | train | test
deriving DecidableEq

/-- Observable events of a `train_model` run, in program order: each external
library call and each `print` statement of the source is recorded.  Calls
record the data arguments that matter for the claims (which matrix was handed
to the scaler/normalizer/predict calls, which token to the sampler). -/
inductive Event : Type
  | dwaveSamplerCall (token endpoint : String)
  | embeddingCompositeCall
  | printOther
  | printSizes (nTrain nTest : ℕ)
  | imputerCtor
  | scalerCtor
  | normalizerCtor
  | scalerFT (side : Side) (X : Mat)
  | normalizerFT (side : Side) (X : Mat)
  | printHeader (k : ClfKind)
  | fitCall (k : ClfKind) (withSampler : Bool)
  | predictCall (k : ClfKind) (side : Side) (X : Mat)
  | printWeights (k : ClfKind)
  | printAccu (k : ClfKind) (side : Side) (v : ℚ)
  | printSummary (side : Side) (vs : List ℚ)
deriving DecidableEq

/-- The `**DW_PARAMS` keyword arguments passed to the two sampler-backed
`fit` calls. -/
structure DWParams : Type where
  numReads : ℕ
  autoScale : Bool
  numSpinReversalTransforms : ℕ
  postprocess : String
deriving DecidableEq

/-- Endpoint constant of the notebook: `url = "https://cloud.dwavesys.com/sapi"`. -/
def url : String := "https://cloud.dwavesys.com/sapi"

/-- The module-level hardcoded API token of the notebook. -/
def sapi_token : String := "CDL8-df1de1d5d76560ee73a82ffca3833a1a444536d3"

/-- The value `accuracy_score` returns on equal-length inputs: the number of
agreeing positions divided by the number of samples. -/
def accScoreVal (y y_pred : Lbl) : ℚ :=
  ((((y.zip y_pred).countP fun p => p.1 == p.2) : ℕ) : ℚ) / ((y.length : ℕ) : ℚ)

/-- Modelled external: `sklearn.metrics.accuracy_score` — on arrays of equal
length it returns the fraction of positions where the labels agree; on a
length mismatch it raises a `ValueError`. -/
def accuracy_score (y y_pred : Lbl) : Except PyErr ℚ :=
  if y.length = y_pred.length then .ok (accScoreVal y y_pred)
  else .error (.valueError "Found input variables with inconsistent numbers of samples")

/-- The notebook's `metric(y, y_pred)`: `return metrics.accuracy_score(y, y_pred)`. -/
def metric (y y_pred : Lbl) : Except PyErr ℚ := accuracy_score y y_pred

/-- The execution monad of `train_model`: a run threads the list of recorded
events and either produces a value or stops at the first raised exception. -/
def M (α : Type) : Type := List Event → Except PyErr α × List Event

/-- Return a value, recording nothing. -/
def pureM {α : Type} (a : α) : M α := fun tr => (.ok a, tr)

/-- Sequencing: run `m`; on success continue with `f`, on an exception stop
(there is no handler anywhere in the notebook). -/
def bindM {α β : Type} (m : M α) (f : α → M β) : M β := fun tr =>
  match m tr with
  | (.ok a, tr') => f a tr'
  | (.error e, tr') => (.error e, tr')

/-- An external call: the event is recorded (the call happens), then its
result — value or exception — is returned. -/
def callM {α : Type} (ev : Event) (r : Except PyErr α) : M α := fun tr =>
  (r, tr ++ [ev])

/-- A pure library computation inside an expression (no separate observable
event): its exception, if any, propagates. -/
def liftE {α : Type} (r : Except PyErr α) : M α := fun tr => (r, tr)

instance : Monad M where
  pure := pureM
  bind := bindM

@[simp] theorem bind_eq {α β : Type} (m : M α) (f : α → M β) :
    m >>= f = bindM m f := rfl

@[simp] theorem pure_eq {α : Type} (a : α) : (pure a : M α) = pureM a := rfl

@[simp] theorem pureM_apply {α : Type} (a : α) (tr : List Event) :
    pureM a tr = (.ok a, tr) := rfl

@[simp] theorem bindM_callM_ok {α β : Type} (ev : Event) (a : α)
    (f : α → M β) (tr : List Event) :
    bindM (callM ev (.ok a)) f tr = f a (tr ++ [ev]) := rfl

@[simp] theorem bindM_callM_error {α β : Type} (ev : Event) (e : PyErr)
    (f : α → M β) (tr : List Event) :
    bindM (callM ev (.error e : Except PyErr α)) f tr = (.error e, tr ++ [ev]) := rfl

@[simp] theorem bindM_liftE_ok {α β : Type} (a : α) (f : α → M β) (tr : List Event) :
    bindM (liftE (.ok a)) f tr = f a tr := rfl

@[simp] theorem bindM_liftE_error {α β : Type} (e : PyErr)
    (f : α → M β) (tr : List Event) :
    bindM (liftE (.error e : Except PyErr α)) f tr = (.error e, tr) := rfl

@[simp] theorem callM_apply {α : Type} (ev : Event) (r : Except PyErr α) (tr : List Event) :
    callM ev r tr = (r, tr ++ [ev]) := rfl

/-- The external libraries the notebook calls, as oracles.  `Clf` is the
(opaque) type of fitted classifier objects and `Smp` the (opaque) type of
samplers.  `imputerTransform` is the imputation the `Imputer` object could
perform; the notebook never invokes it. -/
structure Env (Clf Smp : Type) : Type where
  dwaveSampler : String → String → Except PyErr Smp
  embeddingComposite : Smp → Except PyErr Smp
  imputerTransform : Mat → Except PyErr Mat
  scalerFitTransform : Mat → Except PyErr Mat
  normalizerFitTransform : Mat → Except PyErr Mat
  adaBoostFit : ℕ → Mat → Lbl → Except PyErr Clf
  weakClassifiersFit : ℕ → ℕ → Mat → Lbl → Except PyErr Clf
  randomForestFit : ℕ → ℕ → Mat → Lbl → Except PyErr Clf
  qboostFit : ℕ → ℕ → Mat → Lbl → Smp → ℚ → DWParams → Except PyErr Clf
  qboostPlusFit : List Clf → Mat → Lbl → Smp → ℚ → DWParams → Except PyErr Clf
  predict : Clf → Mat → Except PyErr Lbl

variable {Clf Smp : Type}

/-- The body of `train_model` from the preprocessing lines on (after the
sampler construction, the three opening prints and the three preprocessing
constructor statements).  `emb_sampler` is the embedding composite built at
the top of `train_model`; constructor calls of the individual classifiers are
folded into the corresponding oracle `fit` calls (a scikit-learn constructor
only stores hyperparameters). -/
def trainModelCore (env : Env Clf Smp) (emb_sampler : Smp)
    (X_train : Mat) (y_train : Lbl) (X_test : Mat) (y_test : Lbl)
    (lmd : ℚ) : M (List Clf) := do
  let NUM_READS : ℕ := 1000
  let NUM_WEAK_CLASSIFIERS : ℕ := 30
  let TREE_DEPTH : ℕ := 2
  let DW_PARAMS : DWParams :=
    { numReads := NUM_READS
      autoScale := true
      numSpinReversalTransforms := 10
      postprocess := "optimization" }
  -- X_train = scaler.fit_transform(X_train); X_train = normalizer.fit_transform(X_train)
  let xtr1 ← callM (.scalerFT .train X_train) (env.scalerFitTransform X_train)
  let X_train' ← callM (.normalizerFT .train xtr1) (env.normalizerFitTransform xtr1)
  -- X_test = scaler.fit_transform(X_test); X_test = normalizer.fit_transform(X_test)
  let xte1 ← callM (.scalerFT .test X_test) (env.scalerFitTransform X_test)
  let X_test' ← callM (.normalizerFT .test xte1) (env.normalizerFitTransform xte1)
  -- Adaboost
  let _ ← callM (.printHeader .adaboost) (Except.ok ())
  let clf1 ← callM (.fitCall .adaboost false)
    (env.adaBoostFit NUM_WEAK_CLASSIFIERS X_train' y_train)
  let y_train1 ← callM (.predictCall .adaboost .train X_train') (env.predict clf1 X_train')
  let y_test1 ← callM (.predictCall .adaboost .test X_test') (env.predict clf1 X_test')
  let m1tr ← liftE (metric y_train y_train1)
  let _ ← callM (.printAccu .adaboost .train m1tr) (Except.ok ())
  let m1te ← liftE (metric y_test y_test1)
  let _ ← callM (.printAccu .adaboost .test m1te) (Except.ok ())
  -- Ensembles of Decision Tree
  let _ ← callM (.printHeader .decisionTree) (Except.ok ())
  let clf2 ← callM (.fitCall .decisionTree false)
    (env.weakClassifiersFit NUM_WEAK_CLASSIFIERS TREE_DEPTH X_train' y_train)
  let y_train2 ← callM (.predictCall .decisionTree .train X_train') (env.predict clf2 X_train')
  let y_test2 ← callM (.predictCall .decisionTree .test X_test') (env.predict clf2 X_test')
  let m2tr ← liftE (metric y_train y_train2)
  let _ ← callM (.printAccu .decisionTree .train m2tr) (Except.ok ())
  let m2te ← liftE (metric y_test y_test2)
  let _ ← callM (.printAccu .decisionTree .test m2te) (Except.ok ())
  -- Random forest
  let _ ← callM (.printHeader .randomForest) (Except.ok ())
  let clf3 ← callM (.fitCall .randomForest false)
    (env.randomForestFit TREE_DEPTH NUM_WEAK_CLASSIFIERS X_train' y_train)
  let y_train3 ← callM (.predictCall .randomForest .train X_train') (env.predict clf3 X_train')
  let y_test3 ← callM (.predictCall .randomForest .test X_test') (env.predict clf3 X_test')
  let m3tr ← liftE (metric y_train y_train3)
  let _ ← callM (.printAccu .randomForest .train m3tr) (Except.ok ())
  let m3te ← liftE (metric y_test y_test3)
  let _ ← callM (.printAccu .randomForest .test m3te) (Except.ok ())
  -- Qboost
  let _ ← callM (.printHeader .qboost) (Except.ok ())
  let clf4 ← callM (.fitCall .qboost true)
    (env.qboostFit NUM_WEAK_CLASSIFIERS TREE_DEPTH X_train' y_train emb_sampler lmd DW_PARAMS)
  let y_train4 ← callM (.predictCall .qboost .train X_train') (env.predict clf4 X_train')
  let y_test4 ← callM (.predictCall .qboost .test X_test') (env.predict clf4 X_test')
  let _ ← callM (.printWeights .qboost) (Except.ok ())
  let m4tr ← liftE (metric y_train y_train4)
  let _ ← callM (.printAccu .qboost .train m4tr) (Except.ok ())
  let m4te ← liftE (metric y_test y_test4)
  let _ ← callM (.printAccu .qboost .test m4te) (Except.ok ())
  -- QboostPlus
  let _ ← callM (.printHeader .qboostPlus) (Except.ok ())
  let clf5 ← callM (.fitCall .qboostPlus true)
    (env.qboostPlusFit [clf1, clf2, clf3, clf4] X_train' y_train emb_sampler lmd DW_PARAMS)
  let y_train5 ← callM (.predictCall .qboostPlus .train X_train') (env.predict clf5 X_train')
  let y_test5 ← callM (.predictCall .qboostPlus .test X_test') (env.predict clf5 X_test')
  let _ ← callM (.printWeights .qboostPlus) (Except.ok ())
  let m5tr ← liftE (metric y_train y_train5)
  let _ ← callM (.printAccu .qboostPlus .train m5tr) (Except.ok ())
  let m5te ← liftE (metric y_test y_test5)
  let _ ← callM (.printAccu .qboostPlus .test m5te) (Except.ok ())
  -- summary table
  let _ ← callM .printOther (Except.ok ())
  let _ ← callM .printOther (Except.ok ())
  let t1 ← liftE (metric y_train y_train1)
  let t2 ← liftE (metric y_train y_train2)
  let t3 ← liftE (metric y_train y_train3)
  let t4 ← liftE (metric y_train y_train4)
  let t5 ← liftE (metric y_train y_train5)
  let _ ← callM (.printSummary .train [t1, t2, t3, t4, t5]) (Except.ok ())
  let s1 ← liftE (metric y_test y_test1)
  let s2 ← liftE (metric y_test y_test2)
  let s3 ← liftE (metric y_test y_test3)
  let s4 ← liftE (metric y_test y_test4)
  let s5 ← liftE (metric y_test y_test5)
  let _ ← callM (.printSummary .test [s1, s2, s3, s4, s5]) (Except.ok ())
  let _ ← callM .printOther (Except.ok ())
  pure [clf1, clf2, clf3, clf4, clf5]

/-- The notebook's `train_model(X_train, y_train, X_test, y_test, lmd)`:
sampler construction with the hardcoded token, the opening prints, the three
preprocessing-object constructions, then `trainModelCore`. -/
def trainModel (env : Env Clf Smp)
    (X_train : Mat) (y_train : Lbl) (X_test : Mat) (y_test : Lbl)
    (lmd : ℚ) : M (List Clf) := do
  let dwave_sampler ← callM (.dwaveSamplerCall sapi_token url)
    (env.dwaveSampler sapi_token url)
  let emb_sampler ← callM .embeddingCompositeCall (env.embeddingComposite dwave_sampler)
  let _ ← callM .printOther (Except.ok ())
  let _ ← callM (.printSizes X_train.length X_test.length) (Except.ok ())
  let _ ← callM .printOther (Except.ok ())
  let _ ← callM .imputerCtor (Except.ok ())
  let _ ← callM .scalerCtor (Except.ok ())
  let _ ← callM .normalizerCtor (Except.ok ())
  trainModelCore env emb_sampler X_train y_train X_test y_test lmd

/-- Variant of `train_model` with the single line `imputer = preprocessing.Imputer()`
deleted; everything else identical.  Used to settle that the imputer plays no
role in the function's behaviour. -/
def trainModelNoImputer (env : Env Clf Smp)
    (X_train : Mat) (y_train : Lbl) (X_test : Mat) (y_test : Lbl)
    (lmd : ℚ) : M (List Clf) := do
  let dwave_sampler ← callM (.dwaveSamplerCall sapi_token url)
    (env.dwaveSampler sapi_token url)
  let emb_sampler ← callM .embeddingCompositeCall (env.embeddingComposite dwave_sampler)
  let _ ← callM .printOther (Except.ok ())
  let _ ← callM (.printSizes X_train.length X_test.length) (Except.ok ())
  let _ ← callM .printOther (Except.ok ())
  let _ ← callM .scalerCtor (Except.ok ())
  let _ ← callM .normalizerCtor (Except.ok ())
  trainModelCore env emb_sampler X_train y_train X_test y_test lmd

/-- Is an event a classifier `fit` call? -/
def isFitEvent : Event → Bool
  | .fitCall _ _ => true
  | _ => false

/-- Is an event a classifier `fit` call that passes the embedding-composite
sampler (the remote quantum annealer) as an argument? -/
def isSamplerFitEvent : Event → Bool
  | .fitCall _ true => true
  | _ => false

/-- Is an event the `fit` call of classifier `k`? -/
def isFitOf (k : ClfKind) : Event → Bool
  | .fitCall k' _ => k == k'
  | _ => false

/-- Is an event the `Imputer()` construction? -/
def isImputerCtor : Event → Bool
  | .imputerCtor => true
  | _ => false

/-- The matrix argument of a test-side `predict` call, if the event is one. -/
def testPredictArg : Event → Option Mat
  | .predictCall _ .test X => some X
  | _ => none

/-- Number of classifier `fit` calls recorded in a trace. -/
def countFitEvents (tr : List Event) : ℕ := tr.countP isFitEvent

/-- Number of sampler-backed classifier `fit` calls recorded in a trace. -/
def countSamplerFitEvents (tr : List Event) : ℕ := tr.countP isSamplerFitEvent

/-- The matrices handed to the test-side `predict` calls of a trace, in order. -/
def testPredictArgs (tr : List Event) : List Mat := tr.filterMap testPredictArg

/-- A computation in `M` is stable when its outcome and the events it appends
are fixed, independent of the already-accumulated trace.  Every computation
built from `pureM`, `liftE`, `callM` and `bindM` is stable. -/
def Stable {α : Type} (m : M α) : Prop :=
  ∃ out δ, ∀ tr, m tr = (out, tr ++ δ)

theorem stable_pureM {α : Type} (a : α) : Stable (pureM a) :=
  ⟨.ok a, [], fun tr => by simp [pureM]⟩

theorem stable_liftE {α : Type} (r : Except PyErr α) : Stable (liftE r) :=
  ⟨r, [], fun tr => by simp [liftE]⟩

theorem stable_callM {α : Type} (ev : Event) (r : Except PyErr α) :
    Stable (callM ev r) :=
  ⟨r, [ev], fun _ => rfl⟩

theorem stable_bindM {α β : Type} {m : M α} {f : α → M β}
    (hm : Stable m) (hf : ∀ a, Stable (f a)) : Stable (bindM m f) := by
  obtain ⟨out, δ, h⟩ := hm
  cases out with
  | error e => exact ⟨.error e, δ, fun tr => by simp [bindM, h tr]⟩
  | ok a =>
      obtain ⟨out2, δ2, h2⟩ := hf a
      exact ⟨out2, δ ++ δ2, fun tr => by
        simp [bindM, h tr, h2 (tr ++ δ), List.append_assoc]⟩

theorem stable_trainModelCore (env : Env Clf Smp) (emb_sampler : Smp)
    (X_train : Mat) (y_train : Lbl) (X_test : Mat) (y_test : Lbl) (lmd : ℚ) :
    Stable (trainModelCore env emb_sampler X_train y_train X_test y_test lmd) := by
  unfold trainModelCore
  simp only [bind_eq, pure_eq]
  repeat' first
    | exact stable_callM _ _
    | exact stable_liftE _
    | exact stable_pureM _
    | apply stable_bindM
    | intro x

/-- The full event trace of a `train_model` run in which every library call
succeeds.  Arguments: the raw matrices, the intermediate scaled/normalized
matrices, and the ten accuracy values printed. -/
def fullTrace (X_train X_test xtr1 xtr2 xte1 xte2 : Mat)
    (m1tr m1te m2tr m2te m3tr m3te m4tr m4te m5tr m5te : ℚ) : List Event :=
  [.dwaveSamplerCall sapi_token url,
   .embeddingCompositeCall,
   .printOther,
   .printSizes X_train.length X_test.length,
   .printOther,
   .imputerCtor,
   .scalerCtor,
   .normalizerCtor,
   .scalerFT .train X_train,
   .normalizerFT .train xtr1,
   .scalerFT .test X_test,
   .normalizerFT .test xte1,
   .printHeader .adaboost,
   .fitCall .adaboost false,
   .predictCall .adaboost .train xtr2,
   .predictCall .adaboost .test xte2,
   .printAccu .adaboost .train m1tr,
   .printAccu .adaboost .test m1te,
   .printHeader .decisionTree,
   .fitCall .decisionTree false,
   .predictCall .decisionTree .train xtr2,
   .predictCall .decisionTree .test xte2,
   .printAccu .decisionTree .train m2tr,
   .printAccu .decisionTree .test m2te,
   .printHeader .randomForest,
   .fitCall .randomForest false,
   .predictCall .randomForest .train xtr2,
   .predictCall .randomForest .test xte2,
   .printAccu .randomForest .train m3tr,
   .printAccu .randomForest .test m3te,
   .printHeader .qboost,
   .fitCall .qboost true,
   .predictCall .qboost .train xtr2,
   .predictCall .qboost .test xte2,
   .printWeights .qboost,
   .printAccu .qboost .train m4tr,
   .printAccu .qboost .test m4te,
   .printHeader .qboostPlus,
   .fitCall .qboostPlus true,
   .predictCall .qboostPlus .train xtr2,
   .predictCall .qboostPlus .test xte2,
   .printWeights .qboostPlus,
   .printAccu .qboostPlus .train m5tr,
   .printAccu .qboostPlus .test m5te,
   .printOther,
   .printOther,
   .printSummary .train [m1tr, m2tr, m3tr, m4tr, m5tr],
   .printSummary .test [m1te, m2te, m3te, m4te, m5te],
   .printOther]

/-- Shared characterization of a fully successful `train_model` run: when
every external call succeeds and every prediction has the length of its label
vector, the run returns the five fitted classifiers in training order and its
trace is exactly `fullTrace`. -/
theorem trainModel_run_ok (env : Env Clf Smp)
    (X_train : Mat) (y_train : Lbl) (X_test : Mat) (y_test : Lbl) (lmd : ℚ)
    {s es : Smp} {xtr1 xtr2 xte1 xte2 : Mat} {c1 c2 c3 c4 c5 : Clf}
    {p1tr p1te p2tr p2te p3tr p3te p4tr p4te p5tr p5te : Lbl}
    (h1 : env.dwaveSampler sapi_token url = .ok s)
    (h2 : env.embeddingComposite s = .ok es)
    (h3 : env.scalerFitTransform X_train = .ok xtr1)
    (h4 : env.normalizerFitTransform xtr1 = .ok xtr2)
    (h5 : env.scalerFitTransform X_test = .ok xte1)
    (h6 : env.normalizerFitTransform xte1 = .ok xte2)
    (h7 : env.adaBoostFit 30 xtr2 y_train = .ok c1)
    (h8 : env.predict c1 xtr2 = .ok p1tr)
    (h9 : env.predict c1 xte2 = .ok p1te)
    (hl1 : y_train.length = p1tr.length)
    (hl2 : y_test.length = p1te.length)
    (h10 : env.weakClassifiersFit 30 2 xtr2 y_train = .ok c2)
    (h11 : env.predict c2 xtr2 = .ok p2tr)
    (h12 : env.predict c2 xte2 = .ok p2te)
    (hl3 : y_train.length = p2tr.length)
    (hl4 : y_test.length = p2te.length)
    (h13 : env.randomForestFit 2 30 xtr2 y_train = .ok c3)
    (h14 : env.predict c3 xtr2 = .ok p3tr)
    (h15 : env.predict c3 xte2 = .ok p3te)
    (hl5 : y_train.length = p3tr.length)
    (hl6 : y_test.length = p3te.length)
    (h16 : env.qboostFit 30 2 xtr2 y_train es lmd ⟨1000, true, 10, "optimization"⟩ = .ok c4)
    (h17 : env.predict c4 xtr2 = .ok p4tr)
    (h18 : env.predict c4 xte2 = .ok p4te)
    (hl7 : y_train.length = p4tr.length)
    (hl8 : y_test.length = p4te.length)
    (h19 : env.qboostPlusFit [c1, c2, c3, c4] xtr2 y_train es lmd ⟨1000, true, 10, "optimization"⟩ = .ok c5)
    (h20 : env.predict c5 xtr2 = .ok p5tr)
    (h21 : env.predict c5 xte2 = .ok p5te)
    (hl9 : y_train.length = p5tr.length)
    (hl10 : y_test.length = p5te.length) :
    trainModel env X_train y_train X_test y_test lmd [] =
      (.ok [c1, c2, c3, c4, c5],
       fullTrace X_train X_test xtr1 xtr2 xte1 xte2
         (accScoreVal y_train p1tr) (accScoreVal y_test p1te)
         (accScoreVal y_train p2tr) (accScoreVal y_test p2te)
         (accScoreVal y_train p3tr) (accScoreVal y_test p3te)
         (accScoreVal y_train p4tr) (accScoreVal y_test p4te)
         (accScoreVal y_train p5tr) (accScoreVal y_test p5te)) := by
  have e1 : metric y_train p1tr = .ok (accScoreVal y_train p1tr) := by
    simp [metric, accuracy_score, hl1]
  have e2 : metric y_test p1te = .ok (accScoreVal y_test p1te) := by
    simp [metric, accuracy_score, hl2]
  have e3 : metric y_train p2tr = .ok (accScoreVal y_train p2tr) := by
    simp [metric, accuracy_score, hl3]
  have e4 : metric y_test p2te = .ok (accScoreVal y_test p2te) := by
    simp [metric, accuracy_score, hl4]
  have e5 : metric y_train p3tr = .ok (accScoreVal y_train p3tr) := by
    simp [metric, accuracy_score, hl5]
  have e6 : metric y_test p3te = .ok (accScoreVal y_test p3te) := by
    simp [metric, accuracy_score, hl6]
  have e7 : metric y_train p4tr = .ok (accScoreVal y_train p4tr) := by
    simp [metric, accuracy_score, hl7]
  have e8 : metric y_test p4te = .ok (accScoreVal y_test p4te) := by
    simp [metric, accuracy_score, hl8]
  have e9 : metric y_train p5tr = .ok (accScoreVal y_train p5tr) := by
    simp [metric, accuracy_score, hl9]
  have e10 : metric y_test p5te = .ok (accScoreVal y_test p5te) := by
    simp [metric, accuracy_score, hl10]
  simp only [trainModel, trainModelCore, bind_eq, pure_eq, fullTrace,
    h1, h2, h3, h4, h5, h6, h7, h8, h9, h10, h11, h12,
    h13, h14, h15, h16, h17, h18, h19, h20, h21,
    e1, e2, e3, e4, e5, e6, e7, e8, e9, e10,
    bindM_callM_ok, bindM_callM_error, bindM_liftE_ok, bindM_liftE_error,
    pureM_apply, callM_apply,
    List.nil_append, List.cons_append, List.append_nil, List.singleton_append]

/-- A sample concrete environment in which every library call succeeds:
fitted classifiers are numbered `1`–`5`, every prediction is the empty label
vector. -/
def exEnv : Env ℕ Unit where
  dwaveSampler := fun _ _ => .ok ()
  embeddingComposite := fun _ => .ok ()
  imputerTransform := fun X => .ok X
  scalerFitTransform := fun X => .ok X
  normalizerFitTransform := fun X => .ok X
  adaBoostFit := fun _ _ _ => .ok 1
  weakClassifiersFit := fun _ _ _ _ => .ok 2
  randomForestFit := fun _ _ _ _ => .ok 3
  qboostFit := fun _ _ _ _ _ _ _ => .ok 4
  qboostPlusFit := fun _ _ _ _ _ _ => .ok 5
  predict := fun _ _ => .ok []

/-! ### The dataset-construction cells -/

/-- Numpy fancy indexing `xs[idx]`: pick the element at each index in turn;
an out-of-range index raises (modelled as `none`). -/
def npSelect {α : Type} (xs : List α) : List ℕ → Option (List α)
  | [] => some []
  | i :: idx =>
    match xs[i]?, npSelect xs idx with
    | some a, some ys => some (a :: ys)
    | _, _ => none

/-- The MNIST label map `2*(digit > 4) - 1`. -/
def mnistLabelOf (d : ℕ) : Int := 2 * (if 4 < d then 1 else 0) - 1

/-- The MNIST label vector `2*(digits[idx[:15000]] > 4) - 1`, built from
the digit labels and the (shuffled) index vector truncated to 15000. -/
def mnistY (digits : List ℕ) (idx : List ℕ) : Option Lbl :=
  (npSelect digits (idx.take 15000)).map (List.map mnistLabelOf)

/-- The MNIST feature matrix `x[idx[:15000]].reshape(15000, 784)`.
Images are modelled pre-flattened to 784-vectors, so numpy's reshape
total-size check `n*784 = 15000*784` amounts to requiring exactly 15000
selected rows. -/
def mnistX (images : Mat) (idx : List ℕ) : Option Mat :=
  (npSelect images (idx.take 15000)).bind fun xs =>
    if xs.length = 15000 then some xs else none

/-- The breast-cancer label map `2 * target - 1` ("binary -> spin"). -/
def bcLabelOf (t : ℕ) : Int := 2 * (t : Int) - 1

/-- Training indices `idx_train = idx[:2*len(idx)//3]`. -/
def bcIdxTrain (idx : List ℕ) : List ℕ := idx.take (2 * idx.length / 3)

/-- Testing indices `idx_test = idx[2*len(idx)//3:]`. -/
def bcIdxTest (idx : List ℕ) : List ℕ := idx.drop (2 * idx.length / 3)

/-- The breast-cancer feature matrix `wisc.data[idx_part]`. -/
def bcX (data : Mat) (idxPart : List ℕ) : Option Mat := npSelect data idxPart

/-- The breast-cancer label vector `2 * wisc.target[idx_part] - 1`. -/
def bcY (target : List ℕ) (idxPart : List ℕ) : Option Lbl :=
  (npSelect target idxPart).map (List.map bcLabelOf)

theorem npSelect_length {α : Type} :
    ∀ (idx : List ℕ) (xs ys : List α), npSelect xs idx = some ys →
      ys.length = idx.length
  | [], _, ys, h => by
    simp only [npSelect, Option.some.injEq] at h
    subst h
    rfl
  | i :: idx, xs, ys, h => by
    simp only [npSelect] at h
    cases hg : xs[i]? with
    | none => rw [hg] at h; simp at h
    | some a =>
      rw [hg] at h
      cases hs : npSelect xs idx with
      | none => rw [hs] at h; simp at h
      | some zs =>
        rw [hs] at h
        simp only [Option.some.injEq] at h
        subst h
        simp [npSelect_length idx xs zs hs]

theorem npSelect_mem {α : Type} :
    ∀ (idx : List ℕ) (xs ys : List α), npSelect xs idx = some ys →
      ∀ a ∈ ys, a ∈ xs
  | [], _, ys, h => by
    simp only [npSelect, Option.some.injEq] at h
    subst h
    simp
  | i :: idx, xs, ys, h => by
    simp only [npSelect] at h
    cases hg : xs[i]? with
    | none => rw [hg] at h; simp at h
    | some a =>
      rw [hg] at h
      cases hs : npSelect xs idx with
      | none => rw [hs] at h; simp at h
      | some zs =>
        rw [hs] at h
        simp only [Option.some.injEq] at h
        subst h
        intro b hb
        rcases List.mem_cons.mp hb with hb | hb
        · subst hb
          exact List.get?_mem (by rw [List.get?_eq_getElem?]; exact hg)
        · exact npSelect_mem idx xs zs hs b hb

/-- Selecting index `0` repeatedly from a list whose head is `a` yields
`a` repeated. -/
theorem npSelect_replicate_zero {α : Type} {a : α} {xs : List α}
    (h : xs[0]? = some a) :
    ∀ n, npSelect xs (List.replicate n 0) = some (List.replicate n a) := by
  intro n
  induction n with
  | zero => rfl
  | succ k ih =>
    rw [List.replicate_succ, List.replicate_succ]
    simp [npSelect, h, ih]

/-- Helper: on equal-length vectors, the zip-count of agreeing pairs is the
number of positions at which the two vectors agree. -/
theorem countP_zip_eq_card : ∀ (y yp : Lbl), y.length = yp.length →
    ((y.zip yp).countP fun p => p.1 == p.2)
      = ((Finset.range y.length).filter fun i => y.getD i 0 = yp.getD i 0).card
  | [], [], _ => by simp
  | [], _ :: _, h => by simp at h
  | _ :: _, [], h => by simp at h
  | a :: y, b :: yp, h => by
    have h' : y.length = yp.length := by simpa using h
    have ih := countP_zip_eq_card y yp h'
    simp only [List.zip_cons_cons, List.countP_cons, List.length_cons]
    rw [Finset.card_filter, Finset.sum_range_succ']
    simp only [List.getD_cons_succ, List.getD_cons_zero]
    rw [← Finset.card_filter, ih]
    simp [beq_iff_eq]

/-! ### Claims -/

/-- C2: for every pair of equal-length label vectors, `metric` returns the
classification accuracy — the fraction of positions where `y` and `y_pred`
agree (sklearn's `accuracy_score`) — and `metric` performs no error handling
of its own: whatever exception `accuracy_score` raises is exactly what
`metric` raises. -/
theorem C2_metric_is_accuracy (y y_pred : Lbl) (h : y.length = y_pred.length) :
    metric y y_pred =
      .ok (((((Finset.range y.length).filter fun i =>
          y.getD i 0 = y_pred.getD i 0).card : ℕ) : ℚ) / ((y.length : ℕ) : ℚ)) ∧
    ∀ e, accuracy_score y y_pred = .error e → metric y y_pred = .error e := by
  constructor
  · simp only [metric, accuracy_score, if_pos h, accScoreVal,
      countP_zip_eq_card y y_pred h]
  · intro e he
    exact he

theorem C2_metric_is_accuracy_witness :
    metric [1, -1, 1] [1, 1, 1] = .ok (2 / 3) := by
  have h := (C2_metric_is_accuracy [1, -1, 1] [1, 1, 1] rfl).1
  have hc : ((Finset.range ([1, -1, 1] : Lbl).length).filter fun i =>
      ([1, -1, 1] : Lbl).getD i 0 = ([1, 1, 1] : Lbl).getD i 0).card = 2 := by
    decide
  rw [h, hc]
  simp only [Except.ok.injEq]
  norm_num

/-- C4: every label vector the notebook passes to `train_model` takes values
only in ± 1: the MNIST labels are `2*(digit > 4) - 1`, and the breast-cancer
labels are `2*target - 1` from a 0/1 target. -/
theorem C4_labels_pm_one :
    (∀ digits idx ys, mnistY digits idx = some ys → ∀ v ∈ ys, v = 1 ∨ v = -1) ∧
    (∀ target idxPart ys, (∀ t ∈ target, t = 0 ∨ t = 1) →
        bcY target idxPart = some ys → ∀ v ∈ ys, v = 1 ∨ v = -1) := by
  constructor
  · intro digits idx ys h v hv
    simp only [mnistY, Option.map_eq_some'] at h
    obtain ⟨sel, _, rfl⟩ := h
    rw [List.mem_map] at hv
    obtain ⟨d, _, rfl⟩ := hv
    by_cases hd : 4 < d
    · left; simp [mnistLabelOf, hd]
    · right; simp [mnistLabelOf, hd]
  · intro target idxPart ys ht h v hv
    simp only [bcY, Option.map_eq_some'] at h
    obtain ⟨sel, hsel, rfl⟩ := h
    rw [List.mem_map] at hv
    obtain ⟨t, htmem, rfl⟩ := hv
    rcases ht t (npSelect_mem _ _ _ hsel t htmem) with h0 | h1
    · right; subst h0; rfl
    · left; subst h1; rfl

theorem C4_labels_pm_one_witness :
    (∀ v ∈ ([1, -1] : Lbl), v = 1 ∨ v = -1) ∧
    (∀ v ∈ ([1, -1] : Lbl), v = 1 ∨ v = -1) :=
  ⟨C4_labels_pm_one.1 [5, 3] [0, 1] [1, -1] (by decide),
   C4_labels_pm_one.2 [1, 0] [0, 1] [1, -1] (by decide) (by decide)⟩

/-- C5: in both experiments the feature matrix handed to `train_model` has as
many rows as the label vector has entries — for the MNIST train/test pipeline
(the same construction is instantiated with `idx_01` and with `idx_02`) and
for each breast-cancer split part. -/
theorem C5_rows_match_labels :
    (∀ images digits idx X y, mnistX images idx = some X →
        mnistY digits idx = some y → X.length = y.length) ∧
    (∀ data target idx X y, bcX data (bcIdxTrain idx) = some X →
        bcY target (bcIdxTrain idx) = some y → X.length = y.length) ∧
    (∀ data target idx X y, bcX data (bcIdxTest idx) = some X →
        bcY target (bcIdxTest idx) = some y → X.length = y.length) := by
  refine ⟨?_, ?_, ?_⟩
  · intro images digits idx X y hX hY
    simp only [mnistX] at hX
    cases hs : npSelect images (idx.take 15000) with
    | none => rw [hs] at hX; simp at hX
    | some xs =>
      rw [hs, Option.some_bind] at hX
      by_cases hlen : xs.length = 15000
      · rw [if_pos hlen] at hX
        simp only [Option.some.injEq] at hX
        subst hX
        simp only [mnistY, Option.map_eq_some'] at hY
        obtain ⟨sel, hsel, rfl⟩ := hY
        rw [List.length_map, npSelect_length _ _ _ hsel, npSelect_length _ _ _ hs]
      · rw [if_neg hlen] at hX; simp at hX
  · intro data target idx X y hX hY
    simp only [bcY, Option.map_eq_some'] at hY
    obtain ⟨sel, hsel, rfl⟩ := hY
    rw [List.length_map, npSelect_length _ _ _ hsel, ← npSelect_length _ _ _ hX]
  · intro data target idx X y hX hY
    simp only [bcY, Option.map_eq_some'] at hY
    obtain ⟨sel, hsel, rfl⟩ := hY
    rw [List.length_map, npSelect_length _ _ _ hsel, ← npSelect_length _ _ _ hX]

theorem C5_rows_match_labels_witness :
    (List.replicate 15000 ([] : List ℚ)).length
        = (List.replicate 15000 (1 : Int)).length ∧
    ([[3], [1]] : Mat).length = ([1, 1] : Lbl).length ∧
    ([[2]] : Mat).length = ([-1] : Lbl).length :=
  ⟨C5_rows_match_labels.1 (List.replicate 15000 ([] : List ℚ)) [5]
      (List.replicate 15000 0) _ _
      (by
        unfold mnistX
        rw [List.take_replicate, min_self,
          @npSelect_replicate_zero (List ℚ) [] (List.replicate 15000 [])
            (by rw [List.getElem?_replicate]; norm_num),
          Option.some_bind, if_pos (by rw [List.length_replicate])])
      (by
        unfold mnistY
        rw [List.take_replicate, min_self,
          @npSelect_replicate_zero ℕ 5 [5] (by rfl),
          Option.map_some', List.map_replicate]
        rfl),
   C5_rows_match_labels.2.1 [[1], [2], [3]] [1, 0, 1] [2, 0, 1] _ _
      (by decide) (by decide),
   C5_rows_match_labels.2.2 [[1], [2], [3]] [1, 0, 1] [2, 0, 1] _ _
      (by decide) (by decide)⟩

/-- C1 counterexample: the claim "fits exactly four external classifier
objects, exactly one of which depends on the remote quantum annealer sampler"
is false on the code: in a fully successful concrete run, `train_model`
performs five `fit` calls, two of which pass the annealer-backed sampler. -/
theorem C1_counterexample :
    ¬ (countFitEvents (trainModel exEnv [] [] [] [] 1 []).2 = 4 ∧
       countSamplerFitEvents (trainModel exEnv [] [] [] [] 1 []).2 = 1) := by
  decide

/-- C1 (amended): `train_model` first scales and normalizes the data, then
fits exactly five external classifier objects, exactly two of which (QBoost
and QBoostPlus) depend on the remote quantum annealer sampler, and prints
accuracy metrics for each fitted classifier on both the training and test
sets.  The first conjunct gives the entire event sequence (preprocessing
strictly before all fits); the remaining conjuncts give the fit counts and
the accuracy prints. -/
theorem C1_five_fits_two_sampler (env : Env Clf Smp)
    (X_train : Mat) (y_train : Lbl) (X_test : Mat) (y_test : Lbl) (lmd : ℚ)
    {s es : Smp} {xtr1 xtr2 xte1 xte2 : Mat} {c1 c2 c3 c4 c5 : Clf}
    {p1tr p1te p2tr p2te p3tr p3te p4tr p4te p5tr p5te : Lbl}
    (h1 : env.dwaveSampler sapi_token url = .ok s)
    (h2 : env.embeddingComposite s = .ok es)
    (h3 : env.scalerFitTransform X_train = .ok xtr1)
    (h4 : env.normalizerFitTransform xtr1 = .ok xtr2)
    (h5 : env.scalerFitTransform X_test = .ok xte1)
    (h6 : env.normalizerFitTransform xte1 = .ok xte2)
    (h7 : env.adaBoostFit 30 xtr2 y_train = .ok c1)
    (h8 : env.predict c1 xtr2 = .ok p1tr)
    (h9 : env.predict c1 xte2 = .ok p1te)
    (hl1 : y_train.length = p1tr.length)
    (hl2 : y_test.length = p1te.length)
    (h10 : env.weakClassifiersFit 30 2 xtr2 y_train = .ok c2)
    (h11 : env.predict c2 xtr2 = .ok p2tr)
    (h12 : env.predict c2 xte2 = .ok p2te)
    (hl3 : y_train.length = p2tr.length)
    (hl4 : y_test.length = p2te.length)
    (h13 : env.randomForestFit 2 30 xtr2 y_train = .ok c3)
    (h14 : env.predict c3 xtr2 = .ok p3tr)
    (h15 : env.predict c3 xte2 = .ok p3te)
    (hl5 : y_train.length = p3tr.length)
    (hl6 : y_test.length = p3te.length)
    (h16 : env.qboostFit 30 2 xtr2 y_train es lmd ⟨1000, true, 10, "optimization"⟩ = .ok c4)
    (h17 : env.predict c4 xtr2 = .ok p4tr)
    (h18 : env.predict c4 xte2 = .ok p4te)
    (hl7 : y_train.length = p4tr.length)
    (hl8 : y_test.length = p4te.length)
    (h19 : env.qboostPlusFit [c1, c2, c3, c4] xtr2 y_train es lmd ⟨1000, true, 10, "optimization"⟩ = .ok c5)
    (h20 : env.predict c5 xtr2 = .ok p5tr)
    (h21 : env.predict c5 xte2 = .ok p5te)
    (hl9 : y_train.length = p5tr.length)
    (hl10 : y_test.length = p5te.length) :
    (trainModel env X_train y_train X_test y_test lmd []).2
      = fullTrace X_train X_test xtr1 xtr2 xte1 xte2
          (accScoreVal y_train p1tr) (accScoreVal y_test p1te)
          (accScoreVal y_train p2tr) (accScoreVal y_test p2te)
          (accScoreVal y_train p3tr) (accScoreVal y_test p3te)
          (accScoreVal y_train p4tr) (accScoreVal y_test p4te)
          (accScoreVal y_train p5tr) (accScoreVal y_test p5te) ∧
    countFitEvents (trainModel env X_train y_train X_test y_test lmd []).2 = 5 ∧
    countSamplerFitEvents (trainModel env X_train y_train X_test y_test lmd []).2 = 2 ∧
    ∀ k : ClfKind,
      (∃ v, Event.printAccu k .train v ∈ (trainModel env X_train y_train X_test y_test lmd []).2) ∧
      (∃ v, Event.printAccu k .test v ∈ (trainModel env X_train y_train X_test y_test lmd []).2) := by
  have H := trainModel_run_ok env X_train y_train X_test y_test lmd
    h1 h2 h3 h4 h5 h6 h7 h8 h9 hl1 hl2 h10 h11 h12 hl3 hl4 h13 h14 h15 hl5 hl6
    h16 h17 h18 hl7 hl8 h19 h20 h21 hl9 hl10
  refine ⟨by rw [H], by rw [H]; rfl, by rw [H]; rfl, ?_⟩
  intro k
  rw [H]
  cases k with
  | adaboost =>
      exact ⟨⟨accScoreVal y_train p1tr, by simp [fullTrace]⟩,
             ⟨accScoreVal y_test p1te, by simp [fullTrace]⟩⟩
  | decisionTree =>
      exact ⟨⟨accScoreVal y_train p2tr, by simp [fullTrace]⟩,
             ⟨accScoreVal y_test p2te, by simp [fullTrace]⟩⟩
  | randomForest =>
      exact ⟨⟨accScoreVal y_train p3tr, by simp [fullTrace]⟩,
             ⟨accScoreVal y_test p3te, by simp [fullTrace]⟩⟩
  | qboost =>
      exact ⟨⟨accScoreVal y_train p4tr, by simp [fullTrace]⟩,
             ⟨accScoreVal y_test p4te, by simp [fullTrace]⟩⟩
  | qboostPlus =>
      exact ⟨⟨accScoreVal y_train p5tr, by simp [fullTrace]⟩,
             ⟨accScoreVal y_test p5te, by simp [fullTrace]⟩⟩

theorem C1_five_fits_two_sampler_witness :
    countFitEvents (trainModel exEnv [] [] [] [] 1 []).2 = 5 ∧
    countSamplerFitEvents (trainModel exEnv [] [] [] [] 1 []).2 = 2 := by
  have H := C1_five_fits_two_sampler exEnv [] [] [] [] 1
    rfl rfl rfl rfl rfl rfl rfl rfl rfl rfl rfl rfl rfl rfl rfl rfl rfl rfl
    rfl rfl rfl rfl rfl rfl rfl rfl rfl rfl rfl rfl rfl
  exact ⟨H.2.1, H.2.2.1⟩

/-- C6: `train_model` returns the list of the fitted classifier objects it
trained, in training order — and nothing else. -/
theorem C6_returns_fitted_classifiers (env : Env Clf Smp)
    (X_train : Mat) (y_train : Lbl) (X_test : Mat) (y_test : Lbl) (lmd : ℚ)
    {s es : Smp} {xtr1 xtr2 xte1 xte2 : Mat} {c1 c2 c3 c4 c5 : Clf}
    {p1tr p1te p2tr p2te p3tr p3te p4tr p4te p5tr p5te : Lbl}
    (h1 : env.dwaveSampler sapi_token url = .ok s)
    (h2 : env.embeddingComposite s = .ok es)
    (h3 : env.scalerFitTransform X_train = .ok xtr1)
    (h4 : env.normalizerFitTransform xtr1 = .ok xtr2)
    (h5 : env.scalerFitTransform X_test = .ok xte1)
    (h6 : env.normalizerFitTransform xte1 = .ok xte2)
    (h7 : env.adaBoostFit 30 xtr2 y_train = .ok c1)
    (h8 : env.predict c1 xtr2 = .ok p1tr)
    (h9 : env.predict c1 xte2 = .ok p1te)
    (hl1 : y_train.length = p1tr.length)
    (hl2 : y_test.length = p1te.length)
    (h10 : env.weakClassifiersFit 30 2 xtr2 y_train = .ok c2)
    (h11 : env.predict c2 xtr2 = .ok p2tr)
    (h12 : env.predict c2 xte2 = .ok p2te)
    (hl3 : y_train.length = p2tr.length)
    (hl4 : y_test.length = p2te.length)
    (h13 : env.randomForestFit 2 30 xtr2 y_train = .ok c3)
    (h14 : env.predict c3 xtr2 = .ok p3tr)
    (h15 : env.predict c3 xte2 = .ok p3te)
    (hl5 : y_train.length = p3tr.length)
    (hl6 : y_test.length = p3te.length)
    (h16 : env.qboostFit 30 2 xtr2 y_train es lmd ⟨1000, true, 10, "optimization"⟩ = .ok c4)
    (h17 : env.predict c4 xtr2 = .ok p4tr)
    (h18 : env.predict c4 xte2 = .ok p4te)
    (hl7 : y_train.length = p4tr.length)
    (hl8 : y_test.length = p4te.length)
    (h19 : env.qboostPlusFit [c1, c2, c3, c4] xtr2 y_train es lmd ⟨1000, true, 10, "optimization"⟩ = .ok c5)
    (h20 : env.predict c5 xtr2 = .ok p5tr)
    (h21 : env.predict c5 xte2 = .ok p5te)
    (hl9 : y_train.length = p5tr.length)
    (hl10 : y_test.length = p5te.length) :
    (trainModel env X_train y_train X_test y_test lmd []).1
      = .ok [c1, c2, c3, c4, c5] := by
  have H := trainModel_run_ok env X_train y_train X_test y_test lmd
    h1 h2 h3 h4 h5 h6 h7 h8 h9 hl1 hl2 h10 h11 h12 hl3 hl4 h13 h14 h15 hl5 hl6
    h16 h17 h18 hl7 hl8 h19 h20 h21 hl9 hl10
  rw [H]

theorem C6_returns_fitted_classifiers_witness :
    (trainModel exEnv [] [] [] [] 1 []).1 = .ok [1, 2, 3, 4, 5] :=
  C6_returns_fitted_classifiers exEnv [] [] [] [] 1
    rfl rfl rfl rfl rfl rfl rfl rfl rfl rfl rfl rfl rfl rfl rfl rfl rfl rfl
    rfl rfl rfl rfl rfl rfl rfl rfl rfl rfl rfl rfl rfl

/-- C7: `train_model` runs strictly sequentially in a fixed order — the whole
event sequence of a successful run is the fixed list `fullTrace` (sampler
construction, prints, preprocessing, then for each classifier in turn one
`fit` followed by its train and test `predict`s) — and each of the five
classifiers, in particular each of the two annealer-backed ones, is fitted
synchronously exactly once per `train_model` call. -/
theorem C7_sequential_fixed_order (env : Env Clf Smp)
    (X_train : Mat) (y_train : Lbl) (X_test : Mat) (y_test : Lbl) (lmd : ℚ)
    {s es : Smp} {xtr1 xtr2 xte1 xte2 : Mat} {c1 c2 c3 c4 c5 : Clf}
    {p1tr p1te p2tr p2te p3tr p3te p4tr p4te p5tr p5te : Lbl}
    (h1 : env.dwaveSampler sapi_token url = .ok s)
    (h2 : env.embeddingComposite s = .ok es)
    (h3 : env.scalerFitTransform X_train = .ok xtr1)
    (h4 : env.normalizerFitTransform xtr1 = .ok xtr2)
    (h5 : env.scalerFitTransform X_test = .ok xte1)
    (h6 : env.normalizerFitTransform xte1 = .ok xte2)
    (h7 : env.adaBoostFit 30 xtr2 y_train = .ok c1)
    (h8 : env.predict c1 xtr2 = .ok p1tr)
    (h9 : env.predict c1 xte2 = .ok p1te)
    (hl1 : y_train.length = p1tr.length)
    (hl2 : y_test.length = p1te.length)
    (h10 : env.weakClassifiersFit 30 2 xtr2 y_train = .ok c2)
    (h11 : env.predict c2 xtr2 = .ok p2tr)
    (h12 : env.predict c2 xte2 = .ok p2te)
    (hl3 : y_train.length = p2tr.length)
    (hl4 : y_test.length = p2te.length)
    (h13 : env.randomForestFit 2 30 xtr2 y_train = .ok c3)
    (h14 : env.predict c3 xtr2 = .ok p3tr)
    (h15 : env.predict c3 xte2 = .ok p3te)
    (hl5 : y_train.length = p3tr.length)
    (hl6 : y_test.length = p3te.length)
    (h16 : env.qboostFit 30 2 xtr2 y_train es lmd ⟨1000, true, 10, "optimization"⟩ = .ok c4)
    (h17 : env.predict c4 xtr2 = .ok p4tr)
    (h18 : env.predict c4 xte2 = .ok p4te)
    (hl7 : y_train.length = p4tr.length)
    (hl8 : y_test.length = p4te.length)
    (h19 : env.qboostPlusFit [c1, c2, c3, c4] xtr2 y_train es lmd ⟨1000, true, 10, "optimization"⟩ = .ok c5)
    (h20 : env.predict c5 xtr2 = .ok p5tr)
    (h21 : env.predict c5 xte2 = .ok p5te)
    (hl9 : y_train.length = p5tr.length)
    (hl10 : y_test.length = p5te.length) :
    (trainModel env X_train y_train X_test y_test lmd []).2
      = fullTrace X_train X_test xtr1 xtr2 xte1 xte2
          (accScoreVal y_train p1tr) (accScoreVal y_test p1te)
          (accScoreVal y_train p2tr) (accScoreVal y_test p2te)
          (accScoreVal y_train p3tr) (accScoreVal y_test p3te)
          (accScoreVal y_train p4tr) (accScoreVal y_test p4te)
          (accScoreVal y_train p5tr) (accScoreVal y_test p5te) ∧
    ∀ k : ClfKind,
      ((trainModel env X_train y_train X_test y_test lmd []).2.countP (isFitOf k)) = 1 := by
  have H := trainModel_run_ok env X_train y_train X_test y_test lmd
    h1 h2 h3 h4 h5 h6 h7 h8 h9 hl1 hl2 h10 h11 h12 hl3 hl4 h13 h14 h15 hl5 hl6
    h16 h17 h18 hl7 hl8 h19 h20 h21 hl9 hl10
  refine ⟨by rw [H], ?_⟩
  intro k
  rw [H]
  cases k <;> rfl

theorem C7_sequential_fixed_order_witness :
    ((trainModel exEnv [] [] [] [] 1 []).2.countP (isFitOf .adaboost)) = 1 ∧
    ((trainModel exEnv [] [] [] [] 1 []).2.countP (isFitOf .decisionTree)) = 1 ∧
    ((trainModel exEnv [] [] [] [] 1 []).2.countP (isFitOf .randomForest)) = 1 ∧
    ((trainModel exEnv [] [] [] [] 1 []).2.countP (isFitOf .qboost)) = 1 ∧
    ((trainModel exEnv [] [] [] [] 1 []).2.countP (isFitOf .qboostPlus)) = 1 := by
  have H := C7_sequential_fixed_order exEnv [] [] [] [] 1
    rfl rfl rfl rfl rfl rfl rfl rfl rfl rfl rfl rfl rfl rfl rfl rfl rfl rfl
    rfl rfl rfl rfl rfl rfl rfl rfl rfl rfl rfl rfl rfl
  exact ⟨H.2 .adaboost, H.2 .decisionTree, H.2 .randomForest,
    H.2 .qboost, H.2 .qboostPlus⟩

/-- C9: the preprocessed test matrix is computed by re-fitting the scaler and
normalizer on `X_test` itself, so two `train_model` calls that agree on
`X_test` (but may differ in `X_train`, the labels and `lmd`) hand the
identical preprocessed test matrix — `normalizer.fit_transform after
scaler.fit_transform of X_test alone` — to every test-side `predict` call:
the test-set preprocessing does not depend on the training data. -/
theorem C9_test_preprocessing_independent (env : Env Clf Smp)
    (X_train X_train' : Mat) (y_train y_train' : Lbl) (X_test : Mat)
    (y_test y_test' : Lbl) (lmd lmd' : ℚ)
    {s es : Smp} {xtr1 xtr2 xtr1' xtr2' xte1 xte2 : Mat}
    {c1 c2 c3 c4 c5 c1' c2' c3' c4' c5' : Clf}
    {p1tr p1te p2tr p2te p3tr p3te p4tr p4te p5tr p5te : Lbl}
    {q1tr q1te q2tr q2te q3tr q3te q4tr q4te q5tr q5te : Lbl}
    (h1 : env.dwaveSampler sapi_token url = .ok s)
    (h2 : env.embeddingComposite s = .ok es)
    (h5 : env.scalerFitTransform X_test = .ok xte1)
    (h6 : env.normalizerFitTransform xte1 = .ok xte2)
    (h3 : env.scalerFitTransform X_train = .ok xtr1)
    (h4 : env.normalizerFitTransform xtr1 = .ok xtr2)
    (h7 : env.adaBoostFit 30 xtr2 y_train = .ok c1)
    (h8 : env.predict c1 xtr2 = .ok p1tr)
    (h9 : env.predict c1 xte2 = .ok p1te)
    (hl1 : y_train.length = p1tr.length)
    (hl2 : y_test.length = p1te.length)
    (h10 : env.weakClassifiersFit 30 2 xtr2 y_train = .ok c2)
    (h11 : env.predict c2 xtr2 = .ok p2tr)
    (h12 : env.predict c2 xte2 = .ok p2te)
    (hl3 : y_train.length = p2tr.length)
    (hl4 : y_test.length = p2te.length)
    (h13 : env.randomForestFit 2 30 xtr2 y_train = .ok c3)
    (h14 : env.predict c3 xtr2 = .ok p3tr)
    (h15 : env.predict c3 xte2 = .ok p3te)
    (hl5 : y_train.length = p3tr.length)
    (hl6 : y_test.length = p3te.length)
    (h16 : env.qboostFit 30 2 xtr2 y_train es lmd ⟨1000, true, 10, "optimization"⟩ = .ok c4)
    (h17 : env.predict c4 xtr2 = .ok p4tr)
    (h18 : env.predict c4 xte2 = .ok p4te)
    (hl7 : y_train.length = p4tr.length)
    (hl8 : y_test.length = p4te.length)
    (h19 : env.qboostPlusFit [c1, c2, c3, c4] xtr2 y_train es lmd ⟨1000, true, 10, "optimization"⟩ = .ok c5)
    (h20 : env.predict c5 xtr2 = .ok p5tr)
    (h21 : env.predict c5 xte2 = .ok p5te)
    (hl9 : y_train.length = p5tr.length)
    (hl10 : y_test.length = p5te.length)
    (g3 : env.scalerFitTransform X_train' = .ok xtr1')
    (g4 : env.normalizerFitTransform xtr1' = .ok xtr2')
    (g7 : env.adaBoostFit 30 xtr2' y_train' = .ok c1')
    (g8 : env.predict c1' xtr2' = .ok q1tr)
    (g9 : env.predict c1' xte2 = .ok q1te)
    (gl1 : y_train'.length = q1tr.length)
    (gl2 : y_test'.length = q1te.length)
    (g10 : env.weakClassifiersFit 30 2 xtr2' y_train' = .ok c2')
    (g11 : env.predict c2' xtr2' = .ok q2tr)
    (g12 : env.predict c2' xte2 = .ok q2te)
    (gl3 : y_train'.length = q2tr.length)
    (gl4 : y_test'.length = q2te.length)
    (g13 : env.randomForestFit 2 30 xtr2' y_train' = .ok c3')
    (g14 : env.predict c3' xtr2' = .ok q3tr)
    (g15 : env.predict c3' xte2 = .ok q3te)
    (gl5 : y_train'.length = q3tr.length)
    (gl6 : y_test'.length = q3te.length)
    (g16 : env.qboostFit 30 2 xtr2' y_train' es lmd' ⟨1000, true, 10, "optimization"⟩ = .ok c4')
    (g17 : env.predict c4' xtr2' = .ok q4tr)
    (g18 : env.predict c4' xte2 = .ok q4te)
    (gl7 : y_train'.length = q4tr.length)
    (gl8 : y_test'.length = q4te.length)
    (g19 : env.qboostPlusFit [c1', c2', c3', c4'] xtr2' y_train' es lmd' ⟨1000, true, 10, "optimization"⟩ = .ok c5')
    (g20 : env.predict c5' xtr2' = .ok q5tr)
    (g21 : env.predict c5' xte2 = .ok q5te)
    (gl9 : y_train'.length = q5tr.length)
    (gl10 : y_test'.length = q5te.length) :
    testPredictArgs (trainModel env X_train y_train X_test y_test lmd []).2
      = testPredictArgs (trainModel env X_train' y_train' X_test y_test' lmd' []).2 ∧
    testPredictArgs (trainModel env X_train y_train X_test y_test lmd []).2
      = [xte2, xte2, xte2, xte2, xte2] := by
  have H1 := trainModel_run_ok env X_train y_train X_test y_test lmd
    h1 h2 h3 h4 h5 h6 h7 h8 h9 hl1 hl2 h10 h11 h12 hl3 hl4 h13 h14 h15 hl5 hl6
    h16 h17 h18 hl7 hl8 h19 h20 h21 hl9 hl10
  have H2 := trainModel_run_ok env X_train' y_train' X_test y_test' lmd'
    h1 h2 g3 g4 h5 h6 g7 g8 g9 gl1 gl2 g10 g11 g12 gl3 gl4 g13 g14 g15 gl5 gl6
    g16 g17 g18 gl7 gl8 g19 g20 g21 gl9 gl10
  rw [H1, H2]
  exact ⟨rfl, rfl⟩

theorem C9_test_preprocessing_independent_witness :
    testPredictArgs (trainModel exEnv [] [] [[2]] [] 1 []).2
      = testPredictArgs (trainModel exEnv [[1]] [] [[2]] [] 0 []).2 ∧
    testPredictArgs (trainModel exEnv [] [] [[2]] [] 1 []).2
      = [[[2]], [[2]], [[2]], [[2]], [[2]]] :=
  C9_test_preprocessing_independent exEnv [] [[1]] [] [] [[2]] [] [] 1 0
    rfl rfl rfl rfl rfl rfl rfl rfl rfl rfl rfl rfl rfl rfl rfl rfl rfl rfl
    rfl rfl rfl rfl rfl rfl rfl rfl rfl rfl rfl rfl rfl rfl rfl rfl rfl rfl
    rfl rfl rfl rfl rfl rfl rfl rfl rfl rfl rfl rfl rfl rfl rfl rfl rfl rfl
    rfl rfl rfl rfl

/-- C8: every `train_model` call constructs its quantum-cloud sampler with
the fixed module-level `sapi_token` constant (the hardcoded API token string)
and the fixed endpoint `url` — the very first recorded event of every run,
for every environment and every caller-supplied argument, is
`DWaveSampler(token=sapi_token, endpoint=url)`; no parameter of `train_model`
feeds the credential. -/
theorem C8_hardcoded_token (env : Env Clf Smp)
    (X_train : Mat) (y_train : Lbl) (X_test : Mat) (y_test : Lbl) (lmd : ℚ) :
    (trainModel env X_train y_train X_test y_test lmd []).2.head?
      = some (.dwaveSamplerCall sapi_token url) ∧
    sapi_token = "CDL8-df1de1d5d76560ee73a82ffca3833a1a444536d3" := by
  refine ⟨?_, rfl⟩
  cases hr1 : env.dwaveSampler sapi_token url with
  | error e =>
      simp [trainModel, bind_eq, hr1, bindM_callM_error]
  | ok s =>
      cases hr2 : env.embeddingComposite s with
      | error e =>
          simp [trainModel, bind_eq, hr1, hr2]
      | ok es =>
          obtain ⟨out, δ, hst⟩ :=
            stable_trainModelCore env es X_train y_train X_test y_test lmd
          simp only [trainModel, bind_eq, hr1, hr2, bindM_callM_ok, callM_apply,
            List.nil_append, List.cons_append]
          rw [hst]
          simp

/-- C10: the `Imputer` object built at the start of `train_model` is never
applied to any data: the run is unchanged under arbitrary replacement of the
library's imputation behaviour, and deleting the `imputer = Imputer()` line
(`trainModelNoImputer`) leaves the returned value — and the whole event
sequence apart from the constructor event itself — identical: preprocessing
consists only of `StandardScaler` followed by `Normalizer`. -/
theorem C10_imputer_never_used (env : Env Clf Smp) (f : Mat → Except PyErr Mat)
    (X_train : Mat) (y_train : Lbl) (X_test : Mat) (y_test : Lbl) (lmd : ℚ) :
    trainModel { env with imputerTransform := f } X_train y_train X_test y_test lmd []
      = trainModel env X_train y_train X_test y_test lmd [] ∧
    (trainModel env X_train y_train X_test y_test lmd []).1
      = (trainModelNoImputer env X_train y_train X_test y_test lmd []).1 ∧
    (trainModel env X_train y_train X_test y_test lmd []).2.filter
        (fun e => !(isImputerCtor e))
      = (trainModelNoImputer env X_train y_train X_test y_test lmd []).2.filter
        (fun e => !(isImputerCtor e)) := by
  refine ⟨rfl, ?_⟩
  cases hr1 : env.dwaveSampler sapi_token url with
  | error e =>
      constructor <;> simp [trainModel, trainModelNoImputer, bind_eq, hr1]
  | ok s =>
      cases hr2 : env.embeddingComposite s with
      | error e =>
          constructor <;> simp [trainModel, trainModelNoImputer, bind_eq, hr1, hr2]
      | ok es =>
          obtain ⟨out, δ, hst⟩ :=
            stable_trainModelCore env es X_train y_train X_test y_test lmd
          simp only [trainModel, trainModelNoImputer, bind_eq, hr1, hr2,
            bindM_callM_ok, callM_apply, List.nil_append, List.cons_append]
          rw [hst, hst]
          refine ⟨rfl, ?_⟩
          simp [List.filter_append, isImputerCtor]

/-- Like `exEnv` but the sampler construction raises (e.g. bad credentials). -/
def exEnvDFail : Env ℕ Unit :=
  { exEnv with dwaveSampler := fun _ _ => .error (.authError "invalid token") }

/-- Like `exEnv` but `scaler.fit_transform` raises on any input. -/
def exEnvSFail : Env ℕ Unit :=
  { exEnv with scalerFitTransform := fun _ => .error (.valueError "bad input") }

/-- Like `exEnv` but the annealer-backed `QBoostClassifier.fit` raises (e.g.
the remote sampler is unreachable). -/
def exEnvQFail : Env ℕ Unit :=
  { exEnv with qboostFit := fun _ _ _ _ _ _ _ => .error (.networkError "connection refused") }

/-- C3: neither `metric` nor `train_model` contains any exception handling.
(1) whatever `accuracy_score` raises, `metric` re-raises unchanged;
(2) an exception in the very first library call (the sampler construction)
aborts `train_model` with that exception after that single call;
(3) an exception in `scaler.fit_transform` aborts the run right there, with
the same exception;
(4) an exception in the remote-annealer-backed `QBoostClassifier.fit` aborts
the run with the same exception, the annealer-backed call having been made
exactly once — no retry, timeout or backoff, and nothing runs afterwards. -/
theorem C3_no_error_handling :
    (∀ (y y_pred : Lbl) (e : PyErr),
      accuracy_score y y_pred = .error e → metric y y_pred = .error e) ∧
    (∀ (env : Env Clf Smp) (X_train : Mat) (y_train : Lbl) (X_test : Mat)
        (y_test : Lbl) (lmd : ℚ) (e : PyErr),
      env.dwaveSampler sapi_token url = .error e →
      trainModel env X_train y_train X_test y_test lmd []
        = (.error e, [.dwaveSamplerCall sapi_token url])) ∧
    (∀ (env : Env Clf Smp) (X_train : Mat) (y_train : Lbl) (X_test : Mat)
        (y_test : Lbl) (lmd : ℚ) {s es : Smp} (e : PyErr),
      env.dwaveSampler sapi_token url = .ok s →
      env.embeddingComposite s = .ok es →
      env.scalerFitTransform X_train = .error e →
      trainModel env X_train y_train X_test y_test lmd []
        = (.error e,
           [.dwaveSamplerCall sapi_token url, .embeddingCompositeCall,
            .printOther, .printSizes X_train.length X_test.length, .printOther,
            .imputerCtor, .scalerCtor, .normalizerCtor,
            .scalerFT .train X_train])) ∧
    (∀ (env : Env Clf Smp) (X_train : Mat) (y_train : Lbl) (X_test : Mat)
        (y_test : Lbl) (lmd : ℚ)
        {s es : Smp} {xtr1 xtr2 xte1 xte2 : Mat} {c1 c2 c3 : Clf}
        {p1tr p1te p2tr p2te p3tr p3te : Lbl} (e : PyErr),
      env.dwaveSampler sapi_token url = .ok s →
      env.embeddingComposite s = .ok es →
      env.scalerFitTransform X_train = .ok xtr1 →
      env.normalizerFitTransform xtr1 = .ok xtr2 →
      env.scalerFitTransform X_test = .ok xte1 →
      env.normalizerFitTransform xte1 = .ok xte2 →
      env.adaBoostFit 30 xtr2 y_train = .ok c1 →
      env.predict c1 xtr2 = .ok p1tr →
      env.predict c1 xte2 = .ok p1te →
      y_train.length = p1tr.length →
      y_test.length = p1te.length →
      env.weakClassifiersFit 30 2 xtr2 y_train = .ok c2 →
      env.predict c2 xtr2 = .ok p2tr →
      env.predict c2 xte2 = .ok p2te →
      y_train.length = p2tr.length →
      y_test.length = p2te.length →
      env.randomForestFit 2 30 xtr2 y_train = .ok c3 →
      env.predict c3 xtr2 = .ok p3tr →
      env.predict c3 xte2 = .ok p3te →
      y_train.length = p3tr.length →
      y_test.length = p3te.length →
      env.qboostFit 30 2 xtr2 y_train es lmd ⟨1000, true, 10, "optimization"⟩ = .error e →
      trainModel env X_train y_train X_test y_test lmd []
        = (.error e,
           [.dwaveSamplerCall sapi_token url, .embeddingCompositeCall,
            .printOther, .printSizes X_train.length X_test.length, .printOther,
            .imputerCtor, .scalerCtor, .normalizerCtor,
            .scalerFT .train X_train, .normalizerFT .train xtr1,
            .scalerFT .test X_test, .normalizerFT .test xte1,
            .printHeader .adaboost, .fitCall .adaboost false,
            .predictCall .adaboost .train xtr2, .predictCall .adaboost .test xte2,
            .printAccu .adaboost .train (accScoreVal y_train p1tr),
            .printAccu .adaboost .test (accScoreVal y_test p1te),
            .printHeader .decisionTree, .fitCall .decisionTree false,
            .predictCall .decisionTree .train xtr2, .predictCall .decisionTree .test xte2,
            .printAccu .decisionTree .train (accScoreVal y_train p2tr),
            .printAccu .decisionTree .test (accScoreVal y_test p2te),
            .printHeader .randomForest, .fitCall .randomForest false,
            .predictCall .randomForest .train xtr2, .predictCall .randomForest .test xte2,
            .printAccu .randomForest .train (accScoreVal y_train p3tr),
            .printAccu .randomForest .test (accScoreVal y_test p3te),
            .printHeader .qboost, .fitCall .qboost true]) ∧
      countSamplerFitEvents (trainModel env X_train y_train X_test y_test lmd []).2 = 1) := by
  refine ⟨fun y y_pred e he => he, ?_, ?_, ?_⟩
  · intro env X_train y_train X_test y_test lmd e h
    simp [trainModel, bind_eq, h, bindM_callM_error]
  · intro env X_train y_train X_test y_test lmd s es e h1 h2 hs
    simp [trainModel, trainModelCore, bind_eq, h1, h2, hs]
  · intro env X_train y_train X_test y_test lmd s es xtr1 xtr2 xte1 xte2
      c1 c2 c3 p1tr p1te p2tr p2te p3tr p3te e
      h1 h2 h3 h4 h5 h6 h7 h8 h9 hl1 hl2 h10 h11 h12 hl3 hl4 h13 h14 h15 hl5 hl6 hq
    have e1 : metric y_train p1tr = .ok (accScoreVal y_train p1tr) := by
      simp [metric, accuracy_score, hl1]
    have e2 : metric y_test p1te = .ok (accScoreVal y_test p1te) := by
      simp [metric, accuracy_score, hl2]
    have e3 : metric y_train p2tr = .ok (accScoreVal y_train p2tr) := by
      simp [metric, accuracy_score, hl3]
    have e4 : metric y_test p2te = .ok (accScoreVal y_test p2te) := by
      simp [metric, accuracy_score, hl4]
    have e5 : metric y_train p3tr = .ok (accScoreVal y_train p3tr) := by
      simp [metric, accuracy_score, hl5]
    have e6 : metric y_test p3te = .ok (accScoreVal y_test p3te) := by
      simp [metric, accuracy_score, hl6]
    have He : trainModel env X_train y_train X_test y_test lmd []
        = (.error e,
           [.dwaveSamplerCall sapi_token url, .embeddingCompositeCall,
            .printOther, .printSizes X_train.length X_test.length, .printOther,
            .imputerCtor, .scalerCtor, .normalizerCtor,
            .scalerFT .train X_train, .normalizerFT .train xtr1,
            .scalerFT .test X_test, .normalizerFT .test xte1,
            .printHeader .adaboost, .fitCall .adaboost false,
            .predictCall .adaboost .train xtr2, .predictCall .adaboost .test xte2,
            .printAccu .adaboost .train (accScoreVal y_train p1tr),
            .printAccu .adaboost .test (accScoreVal y_test p1te),
            .printHeader .decisionTree, .fitCall .decisionTree false,
            .predictCall .decisionTree .train xtr2, .predictCall .decisionTree .test xte2,
            .printAccu .decisionTree .train (accScoreVal y_train p2tr),
            .printAccu .decisionTree .test (accScoreVal y_test p2te),
            .printHeader .randomForest, .fitCall .randomForest false,
            .predictCall .randomForest .train xtr2, .predictCall .randomForest .test xte2,
            .printAccu .randomForest .train (accScoreVal y_train p3tr),
            .printAccu .randomForest .test (accScoreVal y_test p3te),
            .printHeader .qboost, .fitCall .qboost true]) := by
      simp only [trainModel, trainModelCore, bind_eq,
        h1, h2, h3, h4, h5, h6, h7, h8, h9, h10, h11, h12, h13, h14, h15,
        e1, e2, e3, e4, e5, e6, hq,
        bindM_callM_ok, bindM_callM_error, bindM_liftE_ok, bindM_liftE_error,
        pureM_apply, callM_apply,
        List.nil_append, List.cons_append, List.append_nil, List.singleton_append]
    exact ⟨He, by rw [He]; rfl⟩

theorem C3_no_error_handling_witness :
    metric [1] [] = .error (.valueError "Found input variables with inconsistent numbers of samples") ∧
    trainModel exEnvDFail [] [] [] [] 1 []
      = (.error (.authError "invalid token"), [.dwaveSamplerCall sapi_token url]) ∧
    trainModel exEnvSFail [] [] [] [] 1 []
      = (.error (.valueError "bad input"),
         [.dwaveSamplerCall sapi_token url, .embeddingCompositeCall,
          .printOther, .printSizes 0 0, .printOther,
          .imputerCtor, .scalerCtor, .normalizerCtor, .scalerFT .train []]) ∧
    countSamplerFitEvents (trainModel exEnvQFail [] [] [] [] 1 []).2 = 1 :=
  ⟨(@C3_no_error_handling ℕ Unit).1 [1] [] _ rfl,
   (@C3_no_error_handling ℕ Unit).2.1 exEnvDFail [] [] [] [] 1 _ rfl,
   (by
      have h := (@C3_no_error_handling ℕ Unit).2.2.1
        exEnvSFail [] [] [] [] 1 (.valueError "bad input") rfl rfl rfl
      simpa using h),
   ((@C3_no_error_handling ℕ Unit).2.2.2 exEnvQFail [] [] [] [] 1
      (.networkError "connection refused") rfl rfl rfl rfl rfl rfl rfl rfl rfl
      rfl rfl rfl rfl rfl rfl rfl rfl rfl rfl rfl rfl rfl).2⟩

end QboostDemo
